import Mathlib

/-!
Shallow embedding of the conversational-gateway core:
session state and registry (`app/core/state.py`), routing
(`app/core/routing.py`), tools (`app/llm/tools.py`), the streaming
orchestrator (`app/llm/client.py`), the post-session summarizer
(`app/tasks/summarization.py`) and the websocket frame handling
(`app/api/websocket.py`).  Timestamps are modelled as natural numbers
passed in explicitly; external library calls (`json.loads`,
`datetime.fromisoformat`, the upstream model) are modelled as function
parameters or outcome data.
-/

/-- Case-insensitive-free character prefix test: `sub` is a prefix of `l`. -/
def charsStartsWith : List Char → List Char → Bool
  | _, [] => true
  | [], _ :: _ => false
  | c :: cs, d :: ds => c == d && charsStartsWith cs ds

/-- Substring containment on character lists, modelling Python `sub in s`. -/
def charsContain : List Char → List Char → Bool
  | [], sub => sub.isEmpty
  | c :: cs, sub => charsStartsWith (c :: cs) sub || charsContain cs sub

/-- Python `sub in s` on strings. -/
def str_contains (s sub : String) : Bool := charsContain s.data sub.data

/-- Python `s.lower()` (ASCII case folding, which covers every string the
source compares after lowering). -/
def py_lower (s : String) : String := String.mk (s.data.map Char.toLower)

/-- `Message` dataclass from `app/core/state.py` (timestamp as ℕ,
tool-call descriptors kept as opaque strings). -/
structure Message where
  role : String
  content : String
  timestamp : Nat := 0
  tool_calls : Option (List String) := none
  tool_call_id : Option String := none
deriving DecidableEq, Repr

/-- `RoutingStrategy` constants from `app/core/routing.py`. -/
def RoutingStrategy.FAST_CONCISE : String := "fast_concise"

def RoutingStrategy.ANALYTICAL : String := "analytical"

def RoutingStrategy.SUMMARIZATION_AWARE : String := "summarization_aware"

def RoutingStrategy.TOOL_HEAVY : String := "tool_heavy"

/-- The routing-decision dictionary returned by
`analyze_conversation_context`. -/
structure RoutingDecision where
  strategy : String
  verbosity : String
  reasoning : List String
  message_count : Nat
  tool_call_count : Nat
deriving DecidableEq, Repr

/-- One entry of `SessionState.tool_outputs`. -/
structure ToolOutputRec where
  tool : String
  result : String
  timestamp : Nat
deriving DecidableEq, Repr

/-- `SessionState` dataclass from `app/core/state.py`. -/
structure SessionState where
  session_id : String
  user_id : String
  start_time : Nat
  messages : List Message := []
  tool_outputs : List ToolOutputRec := []
  routing_decisions : List (RoutingDecision × Nat) := []
  message_count : Nat := 0
  tool_call_count : Nat := 0
deriving DecidableEq, Repr

/-- `SessionState.add_message`: append, bump the counter for user role. -/
def SessionState.add_message (s : SessionState) (m : Message) : SessionState :=
  { s with
    messages := s.messages ++ [m],
    message_count := if m.role == "user" then s.message_count + 1 else s.message_count }

/-- `SessionState.add_tool_output`: append a record, bump `tool_call_count`. -/
def SessionState.add_tool_output (s : SessionState) (tool_name : String)
    (result : String) (now : Nat) : SessionState :=
  { s with
    tool_outputs := s.tool_outputs ++ [⟨tool_name, result, now⟩],
    tool_call_count := s.tool_call_count + 1 }

/-- `SessionState.add_routing_decision`: append the decision with a timestamp. -/
def SessionState.add_routing_decision (s : SessionState) (d : RoutingDecision)
    (now : Nat) : SessionState :=
  { s with routing_decisions := s.routing_decisions ++ [(d, now)] }

/-- Python dict assignment `d[k] = v` on an insertion-ordered association
list: replace the first binding of `k`, else append. -/
def dictSet {α : Type} : List (String × α) → String → α → List (String × α)
  | [], k, v => [(k, v)]
  | (k', v') :: rest, k, v =>
      if k' == k then (k, v) :: rest else (k', v') :: dictSet rest k v

/-- Python `d.get(k)`. -/
def dictGet {α : Type} : List (String × α) → String → Option α
  | [], _ => none
  | (k', v') :: rest, k => if k' == k then some v' else dictGet rest k

/-- Python `d.pop(k, None)`: the removed value (if any) and the remaining dict. -/
def dictPop {α : Type} : List (String × α) → String → Option α × List (String × α)
  | [], _ => (none, [])
  | (k', v') :: rest, k =>
      if k' == k then (some v', rest)
      else
        let r := dictPop rest k
        (r.1, (k', v') :: r.2)

/-- `SessionStateManager` from `app/core/state.py`: the `_sessions` dict. -/
structure SessionStateManager where
  _sessions : List (String × SessionState)
deriving DecidableEq, Repr

/-- `SessionStateManager.create_session`: builds a fresh state and stores it
under `session_id` (plain dict assignment — no presence check). -/
def SessionStateManager.create_session (mgr : SessionStateManager)
    (session_id user_id : String) (now : Nat) : SessionState × SessionStateManager :=
  let state : SessionState := { session_id := session_id, user_id := user_id, start_time := now }
  (state, ⟨dictSet mgr._sessions session_id state⟩)

/-- `SessionStateManager.get_session`. -/
def SessionStateManager.get_session (mgr : SessionStateManager)
    (session_id : String) : Option SessionState :=
  dictGet mgr._sessions session_id

/-- `SessionStateManager.remove_session`. -/
def SessionStateManager.remove_session (mgr : SessionStateManager)
    (session_id : String) : Option SessionState × SessionStateManager :=
  let r := dictPop mgr._sessions session_id
  (r.1, ⟨r.2⟩)

/-- `SessionStateManager.has_session`. -/
def SessionStateManager.has_session (mgr : SessionStateManager)
    (session_id : String) : Bool :=
  match dictGet mgr._sessions session_id with
  | some _ => true
  | none => false

/-- The fixed analytical keyword list of `analyze_conversation_context`. -/
def analytical_keywords : List String :=
  ["analyze", "explain", "why", "how", "compare", "evaluate"]

/-- The backward scan for the most recent user message
(`for msg in reversed(messages): if msg.role == "user"`). -/
def last_user_message (messages : List Message) : Option Message :=
  messages.reverse.find? (fun m => m.role == "user")

/-- Keyword test on one message: any analytical keyword is a substring of
the lower-cased content. -/
def message_is_analytical (m : Message) : Bool :=
  analytical_keywords.any (fun kw => str_contains (py_lower m.content) kw)

/-- The combined condition of lines 46–58 of `app/core/routing.py`: a most
recent user message exists and contains an analytical keyword. -/
def last_user_is_analytical (messages : List Message) : Bool :=
  match last_user_message messages with
  | some m => message_is_analytical m
  | none => false

/-- `analyze_conversation_context` from `app/core/routing.py`: the four
rules applied in order (depth, analytical keywords, tool usage), then
verbosity from the final strategy. -/
def analyze_conversation_context (state : SessionState) : RoutingDecision :=
  let strategy := RoutingStrategy.FAST_CONCISE
  let reasoning : List String := []
  let sr1 : String × List String :=
    if state.message_count > 10 then
      (RoutingStrategy.SUMMARIZATION_AWARE,
        reasoning ++ ["Deep conversation, preparing for potential summarization"])
    else (strategy, reasoning)
  let sr2 : String × List String :=
    if last_user_is_analytical state.messages then
      (RoutingStrategy.ANALYTICAL, sr1.2 ++ ["Analytical query detected"])
    else sr1
  let sr3 : String × List String :=
    if state.tool_call_count > 2 then
      (RoutingStrategy.TOOL_HEAVY, sr2.2 ++ ["High tool usage, expecting more tool calls"])
    else sr2
  let verbosity :=
    if sr3.1 == RoutingStrategy.ANALYTICAL then "detailed"
    else if sr3.1 == RoutingStrategy.SUMMARIZATION_AWARE then "balanced"
    else "concise"
  { strategy := sr3.1, verbosity := verbosity, reasoning := sr3.2,
    message_count := state.message_count, tool_call_count := state.tool_call_count }

/-- Simulated knowledge base of `fetch_internal_knowledge` in `app/llm/tools.py`. -/
def knowledge_base : List (String × String) :=
  [("python", "Python is a high-level programming language known for its simplicity and readability."),
   ("async", "Asynchronous programming allows concurrent execution without blocking operations."),
   ("websocket", "WebSockets provide full-duplex communication channels over a single TCP connection."),
   ("llm", "Large Language Models are AI systems trained on vast text corpora to understand and generate human-like text.")]

/-- Result payload of a tool executor (confidence scaled by 100 to avoid
floating point: the source uses the constants 0.85 and 0.5). -/
inductive ToolPayload
  | knowledge (topic : String) (result : String) (confidence_x100 : Nat)
  | contextual (session_id : String)
deriving DecidableEq, Repr

/-- `fetch_internal_knowledge`: static table lookup with low-confidence
fallback for unknown topics. -/
def fetch_internal_knowledge (topic : String) : ToolPayload :=
  let topic_lower := py_lower topic
  match dictGet knowledge_base topic_lower with
  | some r => .knowledge topic r 85
  | none =>
      .knowledge topic
        ("No specific knowledge found for \x27" ++ topic ++
         "\x27. General information: This is a simulated knowledge base lookup.") 50

/-- `lookup_contextual_data`: static synthesized payload keyed by session id. -/
def lookup_contextual_data (session_id : String) : ToolPayload :=
  .contextual session_id

/-- The keys of `TOOL_EXECUTORS` in `app/llm/tools.py`. -/
def TOOL_EXECUTOR_NAMES : List String :=
  ["fetch_internal_knowledge", "lookup_contextual_data"]

/-- Tool arguments after `json.loads`: a string-valued keyword dictionary. -/
abbrev Args := List (String × String)

/-- Python keyword application `executor(**arguments)` for a one-parameter
executor: a missing or unexpected keyword raises `TypeError`. -/
def callOneKwarg (param : String) (f : String → ToolPayload) (args : Args) :
    Except String ToolPayload :=
  match args with
  | [] => .error ("TypeError: missing required argument: " ++ param)
  | [(k, v)] =>
      if k == param then .ok (f v)
      else .error ("TypeError: unexpected keyword argument: " ++ k)
  | _ => .error "TypeError: unexpected keyword arguments"

/-- `execute_tool` from `app/llm/tools.py`: `ValueError` for an unknown
name, otherwise the executor is invoked with the keyword arguments and
its exceptions propagate (modelled as `Except.error`). -/
def execute_tool (tool_name : String) (arguments : Args) : Except String ToolPayload :=
  if !(TOOL_EXECUTOR_NAMES.contains tool_name) then
    .error ("Unknown tool: " ++ tool_name)
  else if tool_name == "fetch_internal_knowledge" then
    callOneKwarg "topic" fetch_internal_knowledge arguments
  else
    callOneKwarg "session_id" lookup_contextual_data arguments

/-- `settings.openai_model` default from `app/config.py`. -/
def openai_model : String := "gpt-4o"

/-- User-facing message of the `RateLimitError` handler. -/
def rate_limit_message : String :=
  "Rate Limit Exceeded\n\nYou\x27re making requests too quickly. Please:\n1. Wait a few seconds and try again\n2. Check your rate limits at https://platform.openai.com/account/rate-limits\n3. Consider using a model with higher rate limits (e.g., gpt-3.5-turbo)"

/-- User-facing message for exhausted quota (also produced by the
mislabelled 401 branch of the `APIError` handler). -/
def quota_message : String :=
  "OpenAI API Quota Exceeded\n\nYour OpenAI API key has exceeded its usage quota. Please:\n1. Check your billing at https://platform.openai.com/account/billing\n2. Add payment method if needed\n3. Wait for quota reset or upgrade your plan\n4. Or use a different API key with available quota"

/-- Message of the generic 429 branch. -/
def generic_429_message (detail code_str : String) : String :=
  "Too Many Requests (429)\n\nError: " ++ detail ++
  "\n\nThis could be:\n1. Rate limit (too many requests per minute) - wait and retry\n2. Quota exceeded (billing issue) - check https://platform.openai.com/account/billing\nError code: " ++
  (if code_str == "" then "unknown" else code_str)

/-- Message of the (unreachable) invalid-API-key branch. -/
def invalid_key_message : String :=
  "Invalid OpenAI API Key\n\nPlease check your OPENAI_API_KEY in the .env file.\nGet your API key from: https://platform.openai.com/api-keys"

/-- Message of the model-not-found branch. -/
def model_not_found_message (model : String) : String :=
  "Model Not Available\n\nThe model \x27" ++ model ++
  "\x27 is not available. Please:\n1. Check your .env file for OPENAI_MODEL setting\n2. Use a valid model like: gpt-4o, gpt-3.5-turbo, or gpt-4-turbo\n3. Verify model access at https://platform.openai.com/playground"

/-- Message of the trailing generic 429 branch. -/
def too_many_message : String :=
  "Too Many Requests\n\nYou\x27ve hit a rate or quota limit. Please:\n1. Wait a moment and try again\n2. Check your usage at https://platform.openai.com/usage\n3. Consider using gpt-3.5-turbo for lower costs"

/-- Message of the `APIConnectionError` handler. -/
def connection_message : String :=
  "Connection Error\n\nCould not connect to OpenAI API. Please:\n1. Check your internet connection\n2. Verify OpenAI API is accessible\n3. Try again in a moment"

/-- Message of the `APITimeoutError` handler. -/
def timeout_message : String :=
  "Request Timeout\n\nThe request took too long. Please try again."

/-- `Optional[int]` rendering inside an f-string (`None` or the number). -/
def optNatRepr : Option Nat → String
  | none => "None"
  | some n => toString n

/-- Branch structure of the `APIError` handler in
`LLMClient.stream_response` (lines 286–351): `status_code` and the parsed
`error_code_str` / `error_message_detail`, plus `str(e)` as `estr`. -/
def api_error_message (status_code : Option Nat) (code_str detail estr : String) : String :=
  if status_code == some 429 then
    if code_str == "insufficient_quota" then quota_message
    else if code_str == "rate_limit_exceeded" ||
        (detail != "" && str_contains (py_lower detail) "rate_limit") then rate_limit_message
    else generic_429_message detail code_str
  else if status_code == some 401 || str_contains (py_lower detail) "invalid_api_key" then
    quota_message
  else if status_code == some 401 || str_contains (py_lower estr) "invalid_api_key" then
    invalid_key_message
  else if status_code == some 404 || str_contains (py_lower estr) "model_not_found" then
    model_not_found_message openai_model
  else if status_code == some 429 then
    too_many_message
  else
    "OpenAI API Error (Code " ++ optNatRepr status_code ++ "): " ++ estr

/-- The upstream failure categories caught by `stream_response`
(`RateLimitError` is matched before its superclass `APIError`). -/
inductive UpstreamError
  | rateLimit
  | apiError (status_code : Option Nat) (code_str detail estr : String)
  | connection
  | timeout
  | other (msg : String)
deriving DecidableEq, Repr

/-- Content of the single `error` event each handler yields. -/
def errorEventContent : UpstreamError → String
  | .rateLimit => rate_limit_message
  | .apiError c cs d es => api_error_message c cs d es
  | .connection => connection_message
  | .timeout => timeout_message
  | .other msg => "Unexpected error: " ++ msg ++ "\n\nPlease check the server logs for details."

/-- Result field of a `tool_result` event: the executor payload, or the
`\x7b"error": str(e)\x7d` dictionary built in the handler. -/
inductive ToolOutcome
  | ok (payload : ToolPayload)
  | err (msg : String)
deriving DecidableEq, Repr

/-- The typed events `stream_response` yields. -/
inductive LLMEvent
  | token (content : String)
  | tool_call (tool : String) (arguments : Args)
  | tool_result (tool : String) (result : ToolOutcome)
  | done
  | error (content : String)
deriving DecidableEq, Repr

/-- `delta.tool_calls[i].function` fragment. -/
structure FDelta where
  name : Option String
  arguments : Option String
deriving DecidableEq, Repr

/-- One entry of `delta.tool_calls`. -/
structure TCDelta where
  index : Nat
  id : Option String
  function : Option FDelta
deriving DecidableEq, Repr

/-- `chunk.choices[0].delta`. -/
structure ChunkDelta where
  content : Option String
  tool_calls : Option (List TCDelta)
deriving DecidableEq, Repr

/-- `chunk.choices[0]`. -/
structure Choice where
  delta : ChunkDelta
  finish_reason : Option String
deriving DecidableEq, Repr

/-- A streamed chunk. -/
structure Chunk where
  choices : List Choice
deriving DecidableEq, Repr

/-- An accumulated tool call: id, name and the accumulated arguments string. -/
structure AccToolCall where
  id : String
  name : String
  arguments : String
deriving DecidableEq, Repr

/-- Loop state of the first streaming pass. -/
structure P1Core where
  tool_calls : List (Option AccToolCall)
  accumulated_content : String
  finish_reason : Option String
deriving DecidableEq, Repr

/-- Initial loop state. -/
def P1Core.init : P1Core := ⟨[], "", none⟩

/-- Python `x or ""` on an optional string. -/
def optStr : Option String → String
  | some s => s
  | none => ""

/-- Accumulation of one `tool_call_delta` into the indexed list: extend
with `None` slots up to the index, initialize a fresh entry (capturing the
id), then merge in name and argument fragments when truthy. -/
def applyTCDelta (tcs : List (Option AccToolCall)) (d : TCDelta) :
    List (Option AccToolCall) :=
  let tcs :=
    if tcs.length < d.index + 1 then
      tcs ++ List.replicate (d.index + 1 - tcs.length) none
    else tcs
  let cur : AccToolCall :=
    match tcs.get? d.index with
    | some (some c) => c
    | _ => { id := optStr d.id, name := "", arguments := "" }
  let cur :=
    match d.function with
    | none => cur
    | some f =>
        let cur :=
          match f.name with
          | some n => if n == "" then cur else { cur with name := n }
          | none => cur
        match f.arguments with
        | some a => if a == "" then cur else { cur with arguments := cur.arguments ++ a }
        | none => cur
  tcs.set d.index (some cur)

/-- One iteration of the first streaming loop: skip empty-choice chunks,
record the finish reason, fold in tool-call deltas, and yield a token only
while no tool-call fragment has been seen. -/
def stepChunk (s : P1Core) (ch : Chunk) : P1Core × List LLMEvent :=
  match ch.choices with
  | [] => (s, [])
  | choice :: _ =>
      let s := { s with finish_reason := choice.finish_reason }
      let s :=
        match choice.delta.tool_calls with
        | some ds => if ds.isEmpty then s else { s with tool_calls := ds.foldl applyTCDelta s.tool_calls }
        | none => s
      match choice.delta.content with
      | some c =>
          if c != "" && s.tool_calls.isEmpty then
            ({ s with accumulated_content := s.accumulated_content ++ c }, [.token c])
          else (s, [])
      | none => (s, [])

/-- The whole first streaming loop: final state and yielded events. -/
def runChunks (s : P1Core) : List Chunk → P1Core × List LLMEvent
  | [] => (s, [])
  | ch :: rest =>
      ((runChunks (stepChunk s ch).1 rest).1,
       (stepChunk s ch).2 ++ (runChunks (stepChunk s ch).1 rest).2)

/-- The `tool_result` payload the loop produces for one executed call. -/
def outcomeOf (tool_name : String) (args : Args) : ToolOutcome :=
  match execute_tool tool_name args with
  | .ok r => .ok r
  | .error e => .err e

/-- The two events one accumulated tool call yields: the `tool_call`
announcement, then the result (an error payload when the executor raised). -/
def execBlock (parse : String → Option Args) (tc : AccToolCall) : List LLMEvent :=
  let args := (parse tc.arguments).getD []
  [LLMEvent.tool_call tc.name args, LLMEvent.tool_result tc.name (outcomeOf tc.name args)]

/-- `all_tool_calls_formatted` contribution of one call: kept only when the
executor succeeded. -/
def execFmt (parse : String → Option Args) (tc : AccToolCall) : List AccToolCall :=
  match execute_tool tc.name ((parse tc.arguments).getD []) with
  | .ok _ => [tc]
  | .error _ => []

/-- Events of the tool-execution phase, in accumulation order; entries that
are `None` or have an empty name are skipped. -/
def execEvents (parse : String → Option Args) : List (Option AccToolCall) → List LLMEvent
  | [] => []
  | none :: rest => execEvents parse rest
  | some tc :: rest =>
      (if tc.name == "" then [] else execBlock parse tc) ++ execEvents parse rest

/-- `all_tool_calls_formatted` over the whole accumulated list. -/
def execFormatted (parse : String → Option Args) : List (Option AccToolCall) → List AccToolCall
  | [] => []
  | none :: rest => execFormatted parse rest
  | some tc :: rest =>
      (if tc.name == "" then [] else execFmt parse tc) ++ execFormatted parse rest

/-- Token events of the second (no-tools) streaming call. -/
def tokensOfChunks (chunks : List Chunk) : List LLMEvent :=
  chunks.filterMap (fun ch =>
    match ch.choices with
    | choice :: _ =>
        match choice.delta.content with
        | some c => if c == "" then none else some (.token c)
        | none => none
    | [] => none)

/-- Outcome of one upstream streaming call: all chunks, or the chunks seen
before an exception was raised. -/
inductive StreamOutcome
  | ok (chunks : List Chunk)
  | fail (seen : List Chunk) (e : UpstreamError)
deriving DecidableEq, Repr

/-- `LLMClient.stream_response` as a pure function of the two upstream call
outcomes and of `json.loads` on argument strings (`parse`, `none` meaning
`JSONDecodeError`, in which case the loop substitutes an empty dict).
Yields the ordered event list of one turn. -/
def stream_response (parse : String → Option Args) (first second : StreamOutcome) :
    List LLMEvent :=
  match first with
  | .fail seen e =>
      (runChunks P1Core.init seen).2 ++ [.error (errorEventContent e)]
  | .ok chunks =>
      let s := (runChunks P1Core.init chunks).1
      let evs := (runChunks P1Core.init chunks).2
      if !s.tool_calls.isEmpty && s.finish_reason == some "tool_calls" then
        let tEvs := execEvents parse s.tool_calls
        if !(execFormatted parse s.tool_calls).isEmpty then
          match second with
          | .ok c2 => evs ++ tEvs ++ tokensOfChunks c2 ++ [.done]
          | .fail seen2 e => evs ++ tEvs ++ tokensOfChunks seen2 ++ [.error (errorEventContent e)]
        else evs ++ tEvs ++ [.done]
      else evs ++ [.done]

/-- The upstream failure that decides the turn, if any: a first-call
failure, or a second-call failure when the second call happens. -/
def turn_failure (parse : String → Option Args) (first second : StreamOutcome) :
    Option UpstreamError :=
  match first with
  | .fail _ e => some e
  | .ok chunks =>
      let s := (runChunks P1Core.init chunks).1
      if !s.tool_calls.isEmpty && s.finish_reason == some "tool_calls" then
        if !(execFormatted parse s.tool_calls).isEmpty then
          match second with
          | .ok _ => none
          | .fail _ e => some e
        else none
      else none

/-- The terminal event a turn must end with. -/
def expectedTerminal (parse : String → Option Args) (first second : StreamOutcome) :
    LLMEvent :=
  match turn_failure parse first second with
  | some e => .error (errorEventContent e)
  | none => .done

/-- Terminal events of the protocol. -/
def isTerminalEvent : LLMEvent → Bool
  | .done => true
  | .error _ => true
  | _ => false

/-- Tool-related events. -/
def isToolEvent : LLMEvent → Bool
  | .tool_call _ _ => true
  | .tool_result _ _ => true
  | _ => false

/-- A list of tool events is a sequence of adjacent
`tool_call`/`tool_result` pairs with matching tool names. -/
def toolPaired : List LLMEvent → Bool
  | [] => true
  | .tool_call n _ :: .tool_result n' _ :: rest => n == n' && toolPaired rest
  | _ => false

/-- Number of `tool_call` events. -/
def countToolCalls (evs : List LLMEvent) : Nat :=
  (evs.filter (fun e => match e with | .tool_call _ _ => true | _ => false)).length

/-- Number of `tool_result` events. -/
def countToolResults (evs : List LLMEvent) : Nat :=
  (evs.filter (fun e => match e with | .tool_result _ _ => true | _ => false)).length

/-- One persisted event row as returned by `get_session_events`. -/
structure DbEvent where
  event_type : String
  content : String
  timestamp : String
deriving DecidableEq, Repr

/-- The arguments of the single `update_session_summary` call. -/
structure SummaryUpdate where
  session_id : String
  summary : String
  end_time : Int
  duration_seconds : Int
deriving DecidableEq, Repr

/-- `_build_conversation_text` from `app/tasks/summarization.py`:
`user_message`, `tool_call` and `tool_result` events become labelled
lines; `ai_token` and other kinds are dropped. -/
def build_conversation_text (events : List DbEvent) : String :=
  String.intercalate "\n" (events.filterMap (fun e =>
    if e.event_type == "user_message" then some ("User: " ++ e.content)
    else if e.event_type == "tool_call" then some ("[Tool Call: " ++ e.content ++ "]")
    else if e.event_type == "tool_result" then some ("[Tool Result: " ++ e.content ++ "]")
    else none))

/-- The summarization prompt of `_generate_summary_with_llm`. -/
def summary_prompt (conversation_text : String) : String :=
  "Analyze the following conversation and generate a concise but insightful summary.\n\nConversation:\n" ++
  conversation_text ++
  "\n\nPlease provide:\n1. A brief overview of the conversation\n2. Key topics discussed\n3. Notable user intent shifts or patterns\n4. Any important insights or conclusions\n\nFormat your response as a clear, structured summary suitable for post-session review."

/-- `_generate_summary_with_llm`: the upstream completion is a parameter
(`Except.error` models a raised exception, `none` content the falsy
message content). -/
def generate_summary_with_llm (llm : String → Except String (Option String))
    (conversation_text : String) : String :=
  match llm (summary_prompt conversation_text) with
  | .ok content =>
      match content with
      | some c => if c == "" then "No summary generated" else c
      | none => "No summary generated"
  | .error e => "Summary generation failed: " ++ e

/-- `generate_session_summary` from `app/tasks/summarization.py` as a pure
function of the loaded events: returns the `update_session_summary` call it
makes, or `none` when it returns without persisting (empty event list, or
a timestamp-parse exception swallowed by the enclosing handler).
`parseTime` models `datetime.fromisoformat` after the `Z` replacement. -/
def generate_session_summary (session_id : String) (events : List DbEvent)
    (llm : String → Except String (Option String))
    (parseTime : String → Option Int) : Option SummaryUpdate :=
  if events.isEmpty then none
  else
    match events.head?, events.getLast? with
    | some start_event, some end_event =>
        let conversation_text := build_conversation_text events
        let summary := generate_summary_with_llm llm conversation_text
        match parseTime (start_event.timestamp.replace "Z" "+00:00"),
              parseTime (end_event.timestamp.replace "Z" "+00:00") with
        | some start_time, some end_time =>
            some { session_id := session_id, summary := summary,
                   end_time := end_time, duration_seconds := end_time - start_time }
        | _, _ => none
    | _, _ => none

/-- JSON values, modelling what `json.loads` can return. -/
inductive JVal
  | jnull
  | jbool (b : Bool)
  | jnum (n : Int)
  | jstr (s : String)
  | jarr (items : List JVal)
  | jobj (fields : List (String × JVal))

/-- The inbound-frame handling of `websocket_endpoint`
(`app/api/websocket.py` lines 260–264): `json.loads` is the `parseJson`
parameter (`none` = `JSONDecodeError`).  On a parsed object,
`message_data.get("message", data)` selects the field or falls back to the
raw text; on any other parsed value `.get` raises `AttributeError`
(modelled as `Except.error`), which escapes the inner handler. -/
def frame_message_content (parseJson : String → Option JVal) (data : String) :
    Except String JVal :=
  match parseJson data with
  | none => .ok (.jstr data)
  | some (.jobj fields) =>
      match dictGet fields "message" with
      | some v => .ok v
      | none => .ok (.jstr data)
  | some _ => .error "AttributeError"

/-- The session-state mutations the Protocol Driver performs on one
session (`app/api/websocket.py`): appended messages, recorded tool
outputs, recorded routing decisions. -/
inductive SessionOp
  | addMessage (m : Message)
  | addToolOutput (tool_name : String) (result : String) (now : Nat)
  | addRoutingDecision (d : RoutingDecision) (now : Nat)

/-- Apply one mutation. -/
def applyOp (s : SessionState) : SessionOp → SessionState
  | .addMessage m => s.add_message m
  | .addToolOutput n r t => s.add_tool_output n r t
  | .addRoutingDecision d t => s.add_routing_decision d t

/-- Apply a sequence of mutations. -/
def applyOps (s : SessionState) (ops : List SessionOp) : SessionState :=
  ops.foldl applyOp s

/-- The spec invariant: the user-message counter equals the number of
stored messages with role `user`. -/
def userMessageInvariant (s : SessionState) : Prop :=
  s.message_count = (s.messages.filter (fun m => m.role == "user")).length

theorem dictGet_dictSet {α : Type} (d : List (String × α)) (k : String) (v : α) :
    dictGet (dictSet d k v) k = some v := by
  induction d with
  | nil => simp [dictSet, dictGet]
  | cons p rest ih =>
      obtain ⟨k', v'⟩ := p
      cases h : k' == k <;> simp [dictSet, dictGet, h, ih]

/-- C1 (counterexample): `create_session` on an id that is already present
does not fail — it succeeds and replaces the stored session: after
creating `s1` for `alice` and again for `bob`, the registry maps `s1` to
the `bob` session and no longer to the `alice` one. -/
theorem create_session_duplicate_id_overwrites_cex :
    (let c1 := SessionStateManager.create_session ⟨[]⟩ "s1" "alice" 0
     let c2 := SessionStateManager.create_session c1.2 "s1" "bob" 1
     c1.2.has_session "s1" = true ∧
     c2.2.get_session "s1" = some c2.1 ∧
     c2.1.user_id = "bob" ∧
     c2.2.get_session "s1" ≠ some c1.1) := by
  decide

/-- C1 (amended): `create_session` with an id already present in the
registry succeeds and overwrites: afterwards the registry maps the id to
the newly built session (last write wins). -/
theorem create_session_overwrites (mgr : SessionStateManager)
    (id uid : String) (now : Nat) (h : mgr.has_session id = true) :
    (SessionStateManager.create_session mgr id uid now).2.get_session id =
      some (SessionStateManager.create_session mgr id uid now).1 ∧
    (SessionStateManager.create_session mgr id uid now).1.user_id = uid := by
  refine ⟨?_, rfl⟩
  simp [SessionStateManager.create_session, SessionStateManager.get_session, dictGet_dictSet]

/-- Witness for C1 (amended) at a registry that already holds `s1`. -/
theorem create_session_overwrites_witness :
    ((SessionStateManager.create_session ⟨[]⟩ "s1" "alice" 0).2.has_session "s1" = true) ∧
    ((SessionStateManager.create_session
        (SessionStateManager.create_session ⟨[]⟩ "s1" "alice" 0).2 "s1" "bob" 1).2.get_session "s1" =
      some (SessionStateManager.create_session
        (SessionStateManager.create_session ⟨[]⟩ "s1" "alice" 0).2 "s1" "bob" 1).1 ∧
     (SessionStateManager.create_session
        (SessionStateManager.create_session ⟨[]⟩ "s1" "alice" 0).2 "s1" "bob" 1).1.user_id = "bob") :=
  ⟨by decide, create_session_overwrites _ "s1" "bob" 1 (by decide)⟩

theorem applyOp_userMessageInvariant (s : SessionState) (op : SessionOp)
    (h : userMessageInvariant s) : userMessageInvariant (applyOp s op) := by
  cases op with
  | addMessage m =>
      unfold userMessageInvariant at *
      cases hm : m.role == "user" <;>
        simp [applyOp, SessionState.add_message, List.filter_append, hm, h]
  | addToolOutput n r t =>
      simpa [applyOp, SessionState.add_tool_output, userMessageInvariant] using h
  | addRoutingDecision d t =>
      simpa [applyOp, SessionState.add_routing_decision, userMessageInvariant] using h

theorem applyOps_userMessageInvariant (ops : List SessionOp) (s : SessionState)
    (h : userMessageInvariant s) : userMessageInvariant (applyOps s ops) := by
  induction ops generalizing s with
  | nil => simpa [applyOps] using h
  | cons op rest ih =>
      simpa [applyOps, List.foldl] using ih _ (applyOp_userMessageInvariant s op h)

/-- C4: every session state reachable from `create_session` through any
sequence of `add_message` / `add_tool_output` / `add_routing_decision`
keeps `message_count` equal to the number of stored messages whose role is
`user`. -/
theorem user_message_count_invariant (mgr : SessionStateManager)
    (id uid : String) (now : Nat) (ops : List SessionOp) :
    userMessageInvariant
      (applyOps (SessionStateManager.create_session mgr id uid now).1 ops) := by
  apply applyOps_userMessageInvariant
  simp [userMessageInvariant, SessionStateManager.create_session]

/-- C6: when `tool_call_count > 2` and the most recent user message is
analytical, the classifier returns `TOOL_HEAVY`: the tool-usage rule is
evaluated last and overrides the analytical rule. -/
theorem routing_tool_heavy_overrides (state : SessionState)
    (htool : state.tool_call_count > 2)
    (ha : last_user_is_analytical state.messages = true) :
    (analyze_conversation_context state).strategy = RoutingStrategy.TOOL_HEAVY := by
  simp [analyze_conversation_context, ha, htool]

/-- Witness for C6: three tool calls and an analytical last message. -/
theorem routing_tool_heavy_overrides_witness :
    ((⟨"s", "u", 0, [⟨"user", "why does this fail?", 0, none, none⟩], [], [], 1, 3⟩ :
        SessionState).tool_call_count > 2) ∧
    (last_user_is_analytical
      (⟨"s", "u", 0, [⟨"user", "why does this fail?", 0, none, none⟩], [], [], 1, 3⟩ :
        SessionState).messages = true) ∧
    (analyze_conversation_context
      (⟨"s", "u", 0, [⟨"user", "why does this fail?", 0, none, none⟩], [], [], 1, 3⟩ :
        SessionState)).strategy = RoutingStrategy.TOOL_HEAVY :=
  ⟨by decide, by decide,
    routing_tool_heavy_overrides _ (by decide) (by decide)⟩

/-- C7: with more than ten user messages, a non-analytical (or absent)
most recent user message and at most two tool calls, the classifier
returns `SUMMARIZATION_AWARE` with verbosity `balanced`. -/
theorem routing_summarization_aware (state : SessionState)
    (hmc : state.message_count > 10)
    (hna : last_user_is_analytical state.messages = false)
    (htool : ¬ state.tool_call_count > 2) :
    (analyze_conversation_context state).strategy = RoutingStrategy.SUMMARIZATION_AWARE ∧
    (analyze_conversation_context state).verbosity = "balanced" := by
  simp [analyze_conversation_context, hmc, hna, htool]
  decide

/-- Witness for C7: eleven user messages, last message not analytical, no
tool usage. -/
theorem routing_summarization_aware_witness :
    ((⟨"s", "u", 0, [⟨"user", "hello there", 0, none, none⟩], [], [], 11, 0⟩ :
        SessionState).message_count > 10) ∧
    (last_user_is_analytical
      (⟨"s", "u", 0, [⟨"user", "hello there", 0, none, none⟩], [], [], 11, 0⟩ :
        SessionState).messages = false) ∧
    (¬ (⟨"s", "u", 0, [⟨"user", "hello there", 0, none, none⟩], [], [], 11, 0⟩ :
        SessionState).tool_call_count > 2) ∧
    ((analyze_conversation_context
        (⟨"s", "u", 0, [⟨"user", "hello there", 0, none, none⟩], [], [], 11, 0⟩ :
          SessionState)).strategy = RoutingStrategy.SUMMARIZATION_AWARE ∧
     (analyze_conversation_context
        (⟨"s", "u", 0, [⟨"user", "hello there", 0, none, none⟩], [], [], 11, 0⟩ :
          SessionState)).verbosity = "balanced") :=
  ⟨by decide, by decide, by decide,
    routing_summarization_aware _ (by decide) (by decide) (by decide)⟩

theorem stepChunk_events_token (s : P1Core) (ch : Chunk) :
    ∀ e ∈ (stepChunk s ch).2, ∃ c, e = LLMEvent.token c := by
  intro e he
  unfold stepChunk at he
  repeat' split at he
  all_goals try (rw [apply_ite Prod.snd] at he; split at he)
  all_goals simp_all

theorem runChunks_events_token (chunks : List Chunk) (s : P1Core) :
    ∀ e ∈ (runChunks s chunks).2, ∃ c, e = LLMEvent.token c := by
  induction chunks generalizing s with
  | nil => simp [runChunks]
  | cons ch rest ih =>
      intro e he
      simp only [runChunks, List.mem_append] at he
      rcases he with he | he
      · exact stepChunk_events_token s ch e he
      · exact ih _ e he

theorem tokensOfChunks_token (chunks : List Chunk) :
    ∀ e ∈ tokensOfChunks chunks, ∃ c, e = LLMEvent.token c := by
  intro e he
  unfold tokensOfChunks at he
  rw [List.mem_filterMap] at he
  obtain ⟨ch, -, h⟩ := he
  repeat' split at h
  all_goals simp_all
  all_goals exact ⟨_, h.symm⟩

theorem execEvents_isTool (parse : String → Option Args)
    (tcs : List (Option AccToolCall)) :
    ∀ e ∈ execEvents parse tcs, isToolEvent e = true := by
  induction tcs with
  | nil => simp [execEvents]
  | cons otc rest ih =>
      cases otc with
      | none => simpa [execEvents] using ih
      | some tc =>
          intro e he
          simp only [execEvents, List.mem_append] at he
          rcases he with he | he
          · split at he
            · simp at he
            · simp only [execBlock, List.mem_cons, List.mem_singleton] at he
              rcases he with rfl | rfl | he
              · rfl
              · rfl
              · simp at he
          · exact ih e he

theorem toolPaired_execEvents (parse : String → Option Args)
    (tcs : List (Option AccToolCall)) :
    toolPaired (execEvents parse tcs) = true := by
  induction tcs with
  | nil => rfl
  | cons otc rest ih =>
      cases otc with
      | none => simpa [execEvents] using ih
      | some tc =>
          cases h : tc.name == "" with
          | true => simpa [execEvents, h] using ih
          | false => simp [execEvents, h, execBlock, toolPaired, ih]

theorem counts_execEvents (parse : String → Option Args)
    (tcs : List (Option AccToolCall)) :
    countToolCalls (execEvents parse tcs) = countToolResults (execEvents parse tcs) := by
  induction tcs with
  | nil => rfl
  | cons otc rest ih =>
      cases otc with
      | none => simpa [execEvents] using ih
      | some tc =>
          cases h : tc.name == "" with
          | true => simpa [execEvents, h] using ih
          | false =>
              simp only [execEvents, h, if_neg, Bool.false_eq_true, not_false_iff,
                countToolCalls, countToolResults, List.filter_append,
                List.length_append] at ih ⊢
              simp [execBlock, ih]

theorem execEvents_call_result (parse : String → Option Args)
    (tcs : List (Option AccToolCall)) (n : String) (args : Args)
    (h : LLMEvent.tool_call n args ∈ execEvents parse tcs) :
    LLMEvent.tool_result n (outcomeOf n args) ∈ execEvents parse tcs := by
  induction tcs with
  | nil => simp [execEvents] at h
  | cons otc rest ih =>
      cases otc with
      | none =>
          simp only [execEvents] at h ⊢
          exact ih h
      | some tc =>
          simp only [execEvents, List.mem_append] at h ⊢
          rcases h with h | h
          · left
            split at h
            · simp at h
            · simp only [execBlock, List.mem_cons, List.mem_singleton] at h
              rcases h with heq | heq | h
              · obtain ⟨rfl, rfl⟩ : n = tc.name ∧ args = (parse tc.arguments).getD [] := by
                  cases heq; exact ⟨rfl, rfl⟩
                split
                · simp_all
                · simp [execBlock]
              · cases heq
              · simp at h
          · exact Or.inr (ih h)

theorem execEvents_mem_of_acc (parse : String → Option Args)
    (tcs : List (Option AccToolCall)) (tc : AccToolCall)
    (hmem : some tc ∈ tcs) (hname : tc.name ≠ "") :
    LLMEvent.tool_call tc.name ((parse tc.arguments).getD []) ∈ execEvents parse tcs ∧
    LLMEvent.tool_result tc.name (outcomeOf tc.name ((parse tc.arguments).getD [])) ∈
      execEvents parse tcs := by
  induction tcs with
  | nil => simp at hmem
  | cons otc rest ih =>
      rcases List.mem_cons.mp hmem with heq | hmem'
      · cases heq
        have hb : (tc.name == "") = false := by
          simpa using hname
        constructor <;>
          · simp only [execEvents, hb, if_neg, List.mem_append, execBlock]
            simp
      · cases otc with
        | none =>
            simpa only [execEvents] using ih hmem'
        | some tc' =>
            have := ih hmem'
            constructor <;>
              · simp only [execEvents, List.mem_append]
                exact Or.inr (by tauto)

theorem isTerminal_expectedTerminal (parse : String → Option Args)
    (first second : StreamOutcome) :
    isTerminalEvent (expectedTerminal parse first second) = true := by
  unfold expectedTerminal
  cases turn_failure parse first second <;> rfl

theorem isToolEvent_expectedTerminal (parse : String → Option Args)
    (first second : StreamOutcome) :
    isToolEvent (expectedTerminal parse first second) = false := by
  unfold expectedTerminal
  cases turn_failure parse first second <;> rfl

theorem stream_response_shape (parse : String → Option Args)
    (first second : StreamOutcome) :
    ∃ toks1 texec toks2 : List LLMEvent,
      stream_response parse first second =
        toks1 ++ texec ++ toks2 ++ [expectedTerminal parse first second] ∧
      (∀ e ∈ toks1, ∃ c, e = LLMEvent.token c) ∧
      (∀ e ∈ toks2, ∃ c, e = LLMEvent.token c) ∧
      (∀ e ∈ texec, isToolEvent e = true) ∧
      toolPaired texec = true ∧
      countToolCalls texec = countToolResults texec ∧
      (∀ n args, LLMEvent.tool_call n args ∈ texec →
        LLMEvent.tool_result n (outcomeOf n args) ∈ texec) := by
  cases first with
  | fail seen e =>
      refine ⟨(runChunks P1Core.init seen).2, [], [],
        ?_, runChunks_events_token _ _, by simp, by simp, rfl, rfl, by simp⟩
      simp [stream_response, expectedTerminal, turn_failure]
  | ok chunks =>
      cases h1 : (!(runChunks P1Core.init chunks).1.tool_calls.isEmpty &&
          ((runChunks P1Core.init chunks).1.finish_reason == some "tool_calls")) with
      | false =>
          refine ⟨(runChunks P1Core.init chunks).2, [], [],
            ?_, runChunks_events_token _ _, by simp, by simp, rfl, rfl, by simp⟩
          simp [stream_response, expectedTerminal, turn_failure, h1]
      | true =>
          cases h2 : (execFormatted parse (runChunks P1Core.init chunks).1.tool_calls).isEmpty with
          | true =>
              refine ⟨(runChunks P1Core.init chunks).2,
                execEvents parse (runChunks P1Core.init chunks).1.tool_calls, [],
                ?_, runChunks_events_token _ _, by simp,
                execEvents_isTool _ _, toolPaired_execEvents _ _, counts_execEvents _ _,
                fun n args h => execEvents_call_result _ _ n args h⟩
              simp [stream_response, expectedTerminal, turn_failure, h1, h2]
          | false =>
              cases second with
              | ok c2 =>
                  refine ⟨(runChunks P1Core.init chunks).2,
                    execEvents parse (runChunks P1Core.init chunks).1.tool_calls,
                    tokensOfChunks c2,
                    ?_, runChunks_events_token _ _, tokensOfChunks_token _,
                    execEvents_isTool _ _, toolPaired_execEvents _ _, counts_execEvents _ _,
                    fun n args h => execEvents_call_result _ _ n args h⟩
                  simp [stream_response, expectedTerminal, turn_failure, h1, h2]
              | fail seen2 e2 =>
                  refine ⟨(runChunks P1Core.init chunks).2,
                    execEvents parse (runChunks P1Core.init chunks).1.tool_calls,
                    tokensOfChunks seen2,
                    ?_, runChunks_events_token _ _, tokensOfChunks_token _,
                    execEvents_isTool _ _, toolPaired_execEvents _ _, counts_execEvents _ _,
                    fun n args h => execEvents_call_result _ _ n args h⟩
                  simp [stream_response, expectedTerminal, turn_failure, h1, h2]

theorem stream_response_getLast (parse : String → Option Args)
    (first second : StreamOutcome) :
    (stream_response parse first second).getLast? =
      some (expectedTerminal parse first second) := by
  obtain ⟨t1, tx, t2, hs, -, -, -, -, -, -⟩ := stream_response_shape parse first second
  rw [hs]
  exact List.getLast?_concat _

theorem countTool_tokens_zero (l : List LLMEvent)
    (h : ∀ e ∈ l, ∃ c, e = LLMEvent.token c) :
    countToolCalls l = 0 ∧ countToolResults l = 0 := by
  unfold countToolCalls countToolResults
  constructor <;>
    · rw [List.length_eq_zero]
      refine List.filter_eq_nil_iff.mpr ?_
      intro a ha
      obtain ⟨c, rfl⟩ := h a ha
      simp

theorem countTool_terminal_zero (parse : String → Option Args)
    (first second : StreamOutcome) :
    countToolCalls [expectedTerminal parse first second] = 0 ∧
    countToolResults [expectedTerminal parse first second] = 0 := by
  unfold countToolCalls countToolResults expectedTerminal
  cases turn_failure parse first second <;> simp

/-- C2: one turn of `stream_response` ends with exactly one terminal
event: filtered on terminal events, the stream is exactly the singleton
terminal, which is also the final event; the terminal is `done` when no
upstream call failed, and otherwise the single `error` event whose content
is the category-specific message `errorEventContent` of the failure. -/
theorem stream_response_single_terminal (parse : String → Option Args)
    (first second : StreamOutcome) :
    (stream_response parse first second).filter isTerminalEvent =
      [expectedTerminal parse first second] ∧
    (stream_response parse first second).getLast? =
      some (expectedTerminal parse first second) := by
  refine ⟨?_, stream_response_getLast parse first second⟩
  obtain ⟨t1, tx, t2, hs, h1, h2, h3, -, -, -⟩ := stream_response_shape parse first second
  rw [hs]
  have e1 : t1.filter isTerminalEvent = [] := by
    refine List.filter_eq_nil_iff.mpr ?_
    intro a ha
    obtain ⟨c, rfl⟩ := h1 a ha
    simp [isTerminalEvent]
  have e2 : t2.filter isTerminalEvent = [] := by
    refine List.filter_eq_nil_iff.mpr ?_
    intro a ha
    obtain ⟨c, rfl⟩ := h2 a ha
    simp [isTerminalEvent]
  have e3 : tx.filter isTerminalEvent = [] := by
    refine List.filter_eq_nil_iff.mpr ?_
    intro a ha
    have := h3 a ha
    cases a <;> simp_all [isToolEvent, isTerminalEvent]
  simp [List.filter_append, e1, e2, e3,
    isTerminal_expectedTerminal parse first second]

/-- C3: in every turn that reaches `done`, the `tool_call` and
`tool_result` events pair up adjacently in emission order with matching
tool names, and their counts are equal. -/
theorem stream_done_tool_events_paired (parse : String → Option Args)
    (first second : StreamOutcome)
    (hdone : LLMEvent.done ∈ stream_response parse first second) :
    toolPaired ((stream_response parse first second).filter isToolEvent) = true ∧
    countToolCalls (stream_response parse first second) =
      countToolResults (stream_response parse first second) := by
  obtain ⟨t1, tx, t2, hs, h1, h2, h3, hp, hc, -⟩ := stream_response_shape parse first second
  rw [hs]
  have f1 : t1.filter isToolEvent = [] := by
    refine List.filter_eq_nil_iff.mpr ?_
    intro a ha
    obtain ⟨c, rfl⟩ := h1 a ha
    simp [isToolEvent]
  have f2 : t2.filter isToolEvent = [] := by
    refine List.filter_eq_nil_iff.mpr ?_
    intro a ha
    obtain ⟨c, rfl⟩ := h2 a ha
    simp [isToolEvent]
  have fx : tx.filter isToolEvent = tx := List.filter_eq_self.mpr h3
  constructor
  · simp [List.filter_append, f1, f2, fx,
      isToolEvent_expectedTerminal parse first second, hp]
  · obtain ⟨z1, z1'⟩ := countTool_tokens_zero t1 h1
    obtain ⟨z2, z2'⟩ := countTool_tokens_zero t2 h2
    obtain ⟨zt, zt'⟩ := countTool_terminal_zero parse first second
    unfold countToolCalls countToolResults at *
    simp only [List.filter_append, List.length_append, z1, z1', z2, z2', zt, zt', hc]

/-- `execute_tool` on an unregistered name raises `ValueError`. -/
theorem execute_tool_unknown (n : String) (args : Args)
    (h : TOOL_EXECUTOR_NAMES.contains n = false) :
    execute_tool n args = .error ("Unknown tool: " ++ n) := by
  unfold execute_tool
  rw [h]
  rfl

/-- C5: when the model requests an unregistered tool name, the turn
contains a `tool_result` event for that call whose payload is the
`Unknown tool` error, and the unknown tool never terminates the turn: in
the absence of an upstream failure the turn still ends in `done`. -/
theorem unknown_tool_yields_error_result (parse : String → Option Args)
    (first second : StreamOutcome) (n : String) (args : Args)
    (hunk : TOOL_EXECUTOR_NAMES.contains n = false)
    (hmem : LLMEvent.tool_call n args ∈ stream_response parse first second) :
    LLMEvent.tool_result n (.err ("Unknown tool: " ++ n)) ∈
      stream_response parse first second ∧
    (turn_failure parse first second = none →
      (stream_response parse first second).getLast? = some LLMEvent.done) := by
  have hout : outcomeOf n args = .err ("Unknown tool: " ++ n) := by
    unfold outcomeOf
    rw [execute_tool_unknown n args hunk]
  obtain ⟨t1, tx, t2, hs, h1, h2, h3, -, -, hcr⟩ := stream_response_shape parse first second
  constructor
  · rw [hs] at hmem ⊢
    have hmx : LLMEvent.tool_call n args ∈ tx := by
      rcases List.mem_append.mp hmem with hm | hm
      · rcases List.mem_append.mp hm with hm | hm
        · rcases List.mem_append.mp hm with hm | hm
          · obtain ⟨c, hc⟩ := h1 _ hm
            cases hc
          · exact hm
        · obtain ⟨c, hc⟩ := h2 _ hm
          cases hc
      · have ht := isToolEvent_expectedTerminal parse first second
        rw [List.mem_singleton] at hm
        rw [← hm] at ht
        simp [isToolEvent] at ht
    have := hcr n args hmx
    rw [hout] at this
    exact List.mem_append.mpr (Or.inl (List.mem_append.mpr (Or.inl
      (List.mem_append.mpr (Or.inr this)))))
  · intro hnone
    have hlast := stream_response_getLast parse first second
    simpa [expectedTerminal, hnone] using hlast

theorem mem_stream_of_mem_exec (parse : String → Option Args)
    (chunks : List Chunk) (second : StreamOutcome) (ev : LLMEvent)
    (hcond : (!(runChunks P1Core.init chunks).1.tool_calls.isEmpty &&
      ((runChunks P1Core.init chunks).1.finish_reason == some "tool_calls")) = true)
    (hmem : ev ∈ execEvents parse (runChunks P1Core.init chunks).1.tool_calls) :
    ev ∈ stream_response parse (.ok chunks) second := by
  unfold stream_response
  simp only [hcond, if_true]
  cases h2 : (execFormatted parse (runChunks P1Core.init chunks).1.tool_calls).isEmpty with
  | true => simp [h2, List.mem_append, hmem]
  | false => cases second <;> simp [h2, List.mem_append, hmem]

/-- C10: an accumulated tool call whose arguments string does not parse as
JSON still yields its `tool_call` event, with an empty argument dictionary
substituted for the malformed arguments, and the executor is invoked on
that empty dictionary (the paired `tool_result` carries
`outcomeOf tc.name []`); the malformed JSON never makes the turn terminate
in `error` — absent an upstream failure the turn still ends in `done`. -/
theorem invalid_tool_arguments_empty_dict (parse : String → Option Args)
    (chunks : List Chunk) (second : StreamOutcome) (tc : AccToolCall)
    (hacc : some tc ∈ (runChunks P1Core.init chunks).1.tool_calls)
    (hname : tc.name ≠ "")
    (hbad : parse tc.arguments = none)
    (hfin : (runChunks P1Core.init chunks).1.finish_reason = some "tool_calls") :
    LLMEvent.tool_call tc.name [] ∈ stream_response parse (.ok chunks) second ∧
    LLMEvent.tool_result tc.name (outcomeOf tc.name []) ∈
      stream_response parse (.ok chunks) second ∧
    (turn_failure parse (.ok chunks) second = none →
      (stream_response parse (.ok chunks) second).getLast? = some LLMEvent.done) := by
  have hne : (runChunks P1Core.init chunks).1.tool_calls ≠ [] := List.ne_nil_of_mem hacc
  have hcond : (!(runChunks P1Core.init chunks).1.tool_calls.isEmpty &&
      ((runChunks P1Core.init chunks).1.finish_reason == some "tool_calls")) = true := by
    simp [hfin, List.isEmpty_iff, hne]
  have hx := execEvents_mem_of_acc parse _ tc hacc hname
  rw [hbad] at hx
  simp only [Option.getD_none] at hx
  refine ⟨mem_stream_of_mem_exec parse chunks second _ hcond hx.1,
    mem_stream_of_mem_exec parse chunks second _ hcond hx.2, ?_⟩
  intro hnone
  have hlast := stream_response_getLast parse (.ok chunks) second
  simpa [expectedTerminal, hnone] using hlast

/-- C8: for a session whose persisted event log is empty, the summarizer
persists nothing — it returns before any summary is generated, making no
`update_session_summary` call — and, being total, raises nothing to its
caller. -/
theorem summarizer_no_events_no_summary (session_id : String)
    (llm : String → Except String (Option String))
    (parseTime : String → Option Int) :
    generate_session_summary session_id [] llm parseTime = none := by
  rfl

/-- A JVal is a JSON object. -/
def JVal.isObj : JVal → Bool
  | .jobj _ => true
  | _ => false

/-- A `json.loads` stub agreeing with Python on the frames the theorems
below feed it: `[1, 2]` parses to a JSON array, anything else used here
fails to parse. -/
def parse_json_stub : String → Option JVal := fun s =>
  if s == "[1, 2]" then some (.jarr [.jnum 1, .jnum 2]) else none

/-- C9 (counterexample): an inbound frame that parses as JSON but not as
an object — here the array frame `[1, 2]` — makes the frame handler raise
`AttributeError` instead of falling back to the raw text, so not every
inbound frame is handled. -/
theorem frame_non_object_json_fails_cex :
    frame_message_content parse_json_stub "[1, 2]" = .error "AttributeError" := by
  rfl

/-- C9 (amended): the body is the `message` field when the frame parses as
a JSON object containing one; the raw frame text on JSON-parse failure or
when the parsed object lacks the field; but a frame parsing to a
non-object JSON value raises `AttributeError` out of the frame handler. -/
theorem frame_message_content_cases (parseJson : String → Option JVal)
    (data : String) :
    (parseJson data = none →
      frame_message_content parseJson data = .ok (.jstr data)) ∧
    (∀ fields v, parseJson data = some (.jobj fields) →
      dictGet fields "message" = some v →
      frame_message_content parseJson data = .ok v) ∧
    (∀ fields, parseJson data = some (.jobj fields) →
      dictGet fields "message" = none →
      frame_message_content parseJson data = .ok (.jstr data)) ∧
    (∀ v, parseJson data = some v → v.isObj = false →
      frame_message_content parseJson data = .error "AttributeError") := by
  refine ⟨?_, ?_, ?_, ?_⟩
  · intro h
    simp [frame_message_content, h]
  · intro fields v h hv
    simp [frame_message_content, h, hv]
  · intro fields h hv
    simp [frame_message_content, h, hv]
  · intro v h hv
    cases v <;> simp_all [frame_message_content, JVal.isObj]

/-- Witness for C9 (amended): a raw-text frame falls back to itself, and
the array frame raises `AttributeError`. -/
theorem frame_message_content_cases_witness :
    frame_message_content parse_json_stub "hello" = .ok (.jstr "hello") ∧
    frame_message_content parse_json_stub "[1, 2]" = .error "AttributeError" :=
  ⟨(frame_message_content_cases parse_json_stub "hello").1 rfl,
   (frame_message_content_cases parse_json_stub "[1, 2]").2.2.2
     (.jarr [.jnum 1, .jnum 2]) rfl rfl⟩

/-- A `json.loads` stub for tool-argument strings, agreeing with Python on
the strings the witnesses feed it. -/
def wparse : String → Option Args := fun s =>
  if s == "\x7b\x22topic\x22: \x22python\x22\x7d" then some [("topic", "python")]
  else if s == "\x7b\x7d" then some []
  else none

/-- A first-call stream carrying one complete knowledge-tool call and a
tool-call finish reason. -/
def wchunks : List Chunk :=
  [⟨[⟨⟨none, some [⟨0, some "call_1",
      some ⟨some "fetch_internal_knowledge", some "\x7b\x22topic\x22: \x22python\x22\x7d"⟩⟩]⟩,
    some "tool_calls"⟩]⟩]

/-- A first-call stream requesting an unregistered tool name. -/
def wchunks_unknown : List Chunk :=
  [⟨[⟨⟨none, some [⟨0, some "call_1",
      some ⟨some "bogus_tool", some "\x7b\x7d"⟩⟩]⟩,
    some "tool_calls"⟩]⟩]

/-- A first-call stream whose accumulated tool call carries a
non-JSON arguments string. -/
def wchunks_badargs : List Chunk :=
  [⟨[⟨⟨none, some [⟨0, some "call_1",
      some ⟨some "fetch_internal_knowledge", some "not json"⟩⟩]⟩,
    some "tool_calls"⟩]⟩]

/-- The tool call accumulated from `wchunks_badargs`. -/
def wtc : AccToolCall := ⟨"call_1", "fetch_internal_knowledge", "not json"⟩

/-- Witness for C3 at a turn that executes one tool and reaches `done`. -/
theorem stream_done_tool_events_paired_witness :
    (LLMEvent.done ∈ stream_response wparse (.ok wchunks) (.ok [])) ∧
    (toolPaired ((stream_response wparse (.ok wchunks) (.ok [])).filter isToolEvent) = true ∧
     countToolCalls (stream_response wparse (.ok wchunks) (.ok [])) =
       countToolResults (stream_response wparse (.ok wchunks) (.ok []))) :=
  ⟨by decide, stream_done_tool_events_paired wparse (.ok wchunks) (.ok []) (by decide)⟩

/-- Witness for C5 at a turn requesting the unregistered `bogus_tool`. -/
theorem unknown_tool_yields_error_result_witness :
    (TOOL_EXECUTOR_NAMES.contains "bogus_tool" = false) ∧
    (LLMEvent.tool_call "bogus_tool" [] ∈
      stream_response wparse (.ok wchunks_unknown) (.ok [])) ∧
    (LLMEvent.tool_result "bogus_tool" (.err ("Unknown tool: " ++ "bogus_tool")) ∈
        stream_response wparse (.ok wchunks_unknown) (.ok []) ∧
      (turn_failure wparse (.ok wchunks_unknown) (.ok []) = none →
        (stream_response wparse (.ok wchunks_unknown) (.ok [])).getLast? =
          some LLMEvent.done)) :=
  ⟨by decide, by decide,
    unknown_tool_yields_error_result wparse (.ok wchunks_unknown) (.ok [])
      "bogus_tool" [] (by decide) (by decide)⟩

/-- Witness for C10 at a turn whose tool call carries non-JSON arguments. -/
theorem invalid_tool_arguments_empty_dict_witness :
    (some wtc ∈ (runChunks P1Core.init wchunks_badargs).1.tool_calls) ∧
    (wtc.name ≠ "") ∧
    (wparse wtc.arguments = none) ∧
    ((runChunks P1Core.init wchunks_badargs).1.finish_reason = some "tool_calls") ∧
    (LLMEvent.tool_call wtc.name [] ∈
        stream_response wparse (.ok wchunks_badargs) (.ok []) ∧
      LLMEvent.tool_result wtc.name (outcomeOf wtc.name []) ∈
        stream_response wparse (.ok wchunks_badargs) (.ok []) ∧
      (turn_failure wparse (.ok wchunks_badargs) (.ok []) = none →
        (stream_response wparse (.ok wchunks_badargs) (.ok [])).getLast? =
          some LLMEvent.done)) :=
  ⟨by decide, by decide, by decide, by decide,
    invalid_tool_arguments_empty_dict wparse wchunks_badargs (.ok []) wtc
      (by decide) (by decide) (by decide) (by decide)⟩
